import Mathlib

/-!
# MIDI common interface: status-byte classifier and message encoder

A shallow embedding of `src/midi_Helpers.h` (the classifier: `getTypeFromStatusByte`,
`getStatus`, `getChannelFromStatusByte`, `isChannelMessage`) and of
`src/midiCommonInterface.h` (the class `MidiCommonInterface` with its `send*` and
`setHandle*` members), followed by theorems about them.

Conventions of the embedding
* `midi_Defs.h` is not among the sources. Its 8-bit unsigned types `byte`, `DataByte`,
  `StatusByte` and `Channel` are natural numbers (below 256); an enumerator of `MidiType` is
  its numeric code, so that the casts `MidiType(status)` and the comparisons `type < 0x80` of
  the source are the identity and the order of the codes. Where C++ narrows an `int` or
  `unsigned` to a byte the embedding writes `% 256`.
* A C function pointer is the address it holds; `NULL` is `none` in a callback slot.
* C++ `int` arithmetic that can go negative (`channel - 1`, `value - MIN`) is done in `Int`;
  `unsigned(x)` is `x % 2 ^ 32`.
* The object is a record of its data members plus `wire`, the sequence of bytes handed
  to the transport so far; a member function is a function from object to object.
-/

namespace Midi

/-! ## Types and constants of `midi_Defs.h` -/

namespace MidiType

/-- Modelled from the spec: sentinel for a byte with no defined meaning (code 0x00). -/
abbrev InvalidType : Nat := 0x00
/-- Modelled from the spec: channel message Note Off, code 0x80. -/
abbrev NoteOff : Nat := 0x80
/-- Modelled from the spec: channel message Note On, code 0x90. -/
abbrev NoteOn : Nat := 0x90
/-- Modelled from the spec: channel message Polyphonic AfterTouch, code 0xA0. -/
abbrev AfterTouchPoly : Nat := 0xA0
/-- Modelled from the spec: channel message Control Change, code 0xB0. -/
abbrev ControlChange : Nat := 0xB0
/-- Modelled from the spec: channel message Program Change, code 0xC0. -/
abbrev ProgramChange : Nat := 0xC0
/-- Modelled from the spec: channel message Channel AfterTouch, code 0xD0. -/
abbrev AfterTouchChannel : Nat := 0xD0
/-- Modelled from the spec: channel message Pitch Bend, code 0xE0. -/
abbrev PitchBend : Nat := 0xE0
/-- Modelled from the spec: System Exclusive, code 0xF0. -/
abbrev SystemExclusive : Nat := 0xF0
/-- Modelled from the spec: system common MTC Quarter Frame, code 0xF1. -/
abbrev TimeCodeQuarterFrame : Nat := 0xF1
/-- Modelled from the spec: system common Song Position Pointer, code 0xF2. -/
abbrev SongPosition : Nat := 0xF2
/-- Modelled from the spec: system common Song Select, code 0xF3. -/
abbrev SongSelect : Nat := 0xF3
/-- Modelled from the spec: system common Tune Request, code 0xF6. -/
abbrev TuneRequest : Nat := 0xF6
/-- Modelled from the spec: system real time Timing Clock, code 0xF8. -/
abbrev Clock : Nat := 0xF8
/-- Modelled from the spec: system real time Tick, code 0xF9. -/
abbrev Tick : Nat := 0xF9
/-- Modelled from the spec: system real time Start, code 0xFA. -/
abbrev Start : Nat := 0xFA
/-- Modelled from the spec: system real time Continue, code 0xFB. -/
abbrev Continue : Nat := 0xFB
/-- Modelled from the spec: system real time Stop, code 0xFC. -/
abbrev Stop : Nat := 0xFC
/-- Modelled from the spec: system real time Active Sensing, code 0xFE. -/
abbrev ActiveSensing : Nat := 0xFE
/-- Modelled from the spec: system real time System Reset, code 0xFF. -/
abbrev SystemReset : Nat := 0xFF

end MidiType

/-- Modelled from the spec: the outbound guard value `MIDI_CHANNEL_OMNI` (all channels) of
`midi_Defs.h`. -/
abbrev MIDI_CHANNEL_OMNI : Nat := 0

/-- Modelled from the spec: the outbound guard value `MIDI_CHANNEL_OFF` (disabled) of
`midi_Defs.h`, and over. -/
abbrev MIDI_CHANNEL_OFF : Nat := 17

/-- Modelled from the spec: lower bound `MIDI_PITCHBEND_MIN` of the integer pitch-bend range. -/
abbrev MIDI_PITCHBEND_MIN : Int := -8192

/-- Modelled from the spec: upper bound `MIDI_PITCHBEND_MAX` of the integer pitch-bend range. -/
abbrev MIDI_PITCHBEND_MAX : Int := 8191

/-- The seven channel-message types of the data model, in code order. -/
def channelMessageTypes : List Nat :=
  [MidiType.NoteOff, MidiType.NoteOn, MidiType.AfterTouchPoly, MidiType.ControlChange,
   MidiType.ProgramChange, MidiType.AfterTouchChannel, MidiType.PitchBend]

/-- The conversion `unsigned(x)` of a C++ `int` to `unsigned` (32 bits): reduction modulo
`2 ^ 32`. -/
def toUnsigned (x : Int) : Nat := (x % 2 ^ 32).toNat

/-- The conversion `int(x)` of a `double` to `int`, on the exact rational model of the
double: truncation toward zero. -/
def truncToInt (x : ℚ) : Int := Int.tdiv x.num (x.den : Int)

/-! ## `midi_Helpers.h` -/

/-- Source `getTypeFromStatusByte`: extract an enumerated MIDI type from a status byte. -/
def getTypeFromStatusByte (status : Nat) : Nat :=
  if status < 0x80 ∨ status = 0xf4 ∨ status = 0xf5 ∨ status = 0xf9 ∨ status = 0xfD then
    -- Data bytes and undefined.
    MidiType.InvalidType
  else if status < 0xf0 then
    -- Channel message, remove channel nibble.
    status &&& 0xf0
  else
    status

/-- Source `getStatus`: returns type + channel. The operands are promoted to `int`, so
`channel - 1` is `-1` for channel 0; the result is narrowed to a `StatusByte`. -/
def getStatus (type : Nat) (channel : Nat) : Nat :=
  (Int.lor (Int.land (type : Int) 0xf0) (Int.land ((channel : Int) - 1) 0x0f) % 256).toNat

/-- Source `getChannelFromStatusByte`: returns channel in the range 1-16. -/
def getChannelFromStatusByte (status : Nat) : Nat :=
  ((status &&& 0x0f) + 1) % 256

/-- Source `isChannelMessage`. -/
def isChannelMessage (type : Nat) : Bool :=
  type == MidiType.NoteOff ||
  type == MidiType.NoteOn ||
  type == MidiType.ControlChange ||
  type == MidiType.AfterTouchPoly ||
  type == MidiType.AfterTouchChannel ||
  type == MidiType.PitchBend ||
  type == MidiType.ProgramChange

/-! ## `midiCommonInterface.h` -/

/-- Source class `MidiCommonInterface`: its data members, and `wire`, the bytes passed to the
abstract `write` overloads so far, oldest first. -/
structure MidiCommonInterface where
  _runningStatus : Int
  _thruActivated : Bool
  _noteOnCallback : Option Nat
  _noteOffCallback : Option Nat
  _afterTouchPolyCallback : Option Nat
  _controlChangeCallback : Option Nat
  _programChangeCallback : Option Nat
  _afterTouchChannelCallback : Option Nat
  _pitchBendCallback : Option Nat
  _songPositionCallback : Option Nat
  _songSelectCallback : Option Nat
  _tuneRequestCallback : Option Nat
  _timeCodeQuarterFrameCallback : Option Nat
  _sysExCallback : Option Nat
  _clockCallback : Option Nat
  _startCallback : Option Nat
  _continueCallback : Option Nat
  _stopCallback : Option Nat
  _activeSensingCallback : Option Nat
  _resetCallback : Option Nat
  wire : List Nat
  deriving DecidableEq

namespace MidiCommonInterface

/-- Source constructor `MidiCommonInterface()`: the body is empty, so `_runningStatus` and
`_thruActivated` hold whatever they held (the two arguments); every callback slot takes
its default member initialiser `NULL`; nothing has been written. -/
def new (runningStatus : Int) (thruActivated : Bool) : MidiCommonInterface :=
  { _runningStatus := runningStatus
    _thruActivated := thruActivated
    _noteOnCallback := none
    _noteOffCallback := none
    _afterTouchPolyCallback := none
    _controlChangeCallback := none
    _programChangeCallback := none
    _afterTouchChannelCallback := none
    _pitchBendCallback := none
    _songPositionCallback := none
    _songSelectCallback := none
    _tuneRequestCallback := none
    _timeCodeQuarterFrameCallback := none
    _sysExCallback := none
    _clockCallback := none
    _startCallback := none
    _continueCallback := none
    _stopCallback := none
    _activeSensingCallback := none
    _resetCallback := none
    wire := [] }

/-- Modelled from the spec: the pure virtual `write(DataByte)`; the transport transmits the
byte, in order, without dropping or reordering. -/
def write1 (b : Nat) (m : MidiCommonInterface) : MidiCommonInterface :=
  { m with wire := m.wire ++ [b] }

/-- Modelled from the spec: the pure virtual `write(DataByte, DataByte)`. -/
def write2 (b1 b2 : Nat) (m : MidiCommonInterface) : MidiCommonInterface :=
  { m with wire := m.wire ++ [b1, b2] }

/-- Modelled from the spec: the pure virtual `write(DataByte, DataByte, DataByte)`. -/
def write3 (b1 b2 b3 : Nat) (m : MidiCommonInterface) : MidiCommonInterface :=
  { m with wire := m.wire ++ [b1, b2, b3] }

/-- Source `sendRealTimeMessage` (the base-class body). -/
def sendRealTimeMessage (type : Nat) (m : MidiCommonInterface) : MidiCommonInterface :=
  -- Do not invalidate Running Status for real-time messages
  -- as they can be interleaved within any message.
  if type = MidiType.Clock ∨ type = MidiType.Start ∨ type = MidiType.Stop ∨
      type = MidiType.Continue ∨ type = MidiType.ActiveSensing ∨
      type = MidiType.SystemReset then
    write1 type m
  else
    -- Invalid Real Time marker
    m

/-- Source `sendSystemCommonMessage` (the base-class body, which is empty). -/
def sendSystemCommonMessage (_type : Nat) (_data1 : Nat) (_data2 : Nat)
    (m : MidiCommonInterface) : MidiCommonInterface :=
  m

/-- Source `sendChannelMessage` (the base-class body). -/
def sendChannelMessage (type : Nat) (data1 data2 : Nat) (channel : Nat)
    (m : MidiCommonInterface) : MidiCommonInterface :=
  -- Then test if channel is valid
  if channel ≥ MIDI_CHANNEL_OFF ∨ channel = MIDI_CHANNEL_OMNI ∨ type < 0x80 then
    m -- Don't send anything
  else if type ≤ MidiType.PitchBend then
    -- Channel messages
    -- Protection: remove MSBs on data
    let data1 := data1 &&& 0x7f
    let data2 := data2 &&& 0x7f
    let status := getStatus type channel
    if type ≠ MidiType.ProgramChange ∧ type ≠ MidiType.AfterTouchChannel then
      write3 status data1 data2 m
    else
      write2 status data1 m
  else if type ≥ MidiType.Clock ∧ type ≤ MidiType.SystemReset then
    sendRealTimeMessage type m -- System Real-time and 1 byte.
  else
    m

/-- Source `sendNoteOn`. -/
def sendNoteOn (note velocity : Nat) (channel : Nat) (m : MidiCommonInterface) :
    MidiCommonInterface :=
  sendChannelMessage MidiType.NoteOn note velocity channel m

/-- Source `sendNoteOff`. -/
def sendNoteOff (note velocity : Nat) (channel : Nat) (m : MidiCommonInterface) :
    MidiCommonInterface :=
  sendChannelMessage MidiType.NoteOff note velocity channel m

/-- Source `sendProgramChange`. -/
def sendProgramChange (number : Nat) (channel : Nat) (m : MidiCommonInterface) :
    MidiCommonInterface :=
  sendChannelMessage MidiType.ProgramChange number 0 channel m

/-- Source `sendControlChange`. -/
def sendControlChange (number value : Nat) (channel : Nat) (m : MidiCommonInterface) :
    MidiCommonInterface :=
  sendChannelMessage MidiType.ControlChange number value channel m

/-- Source `sendPitchBend(int value, Channel channel)`. The two data arguments are narrowed
from `unsigned` to `DataByte`. -/
def sendPitchBend (value : Int) (channel : Nat) (m : MidiCommonInterface) :
    MidiCommonInterface :=
  let bend : Nat := toUnsigned (value - MIDI_PITCHBEND_MIN)
  sendChannelMessage MidiType.PitchBend ((bend &&& 0x7f) % 256) (((bend >>> 7) &&& 0x7f) % 256)
    channel m

/-- The `int` that source `sendPitchBend(double pitchValue, Channel channel)` passes on to the
integer form: its locals `scale` and `value`. The double is modelled by an exact rational:
the product is taken exactly, where the source rounds it to a double before `int()`. The two
agree wherever the product is itself a double, as it is for `pitchValue = 1.0` and for every
`pitchValue <= 0` (a multiplication by 8192); for other positive values the rounding can
carry the product up to the next integer, and the model is not used there. -/
def pitchBendValueOfDouble (pitchValue : ℚ) : Int :=
  let scale : Int := if pitchValue > 0 then MIDI_PITCHBEND_MAX else MIDI_PITCHBEND_MIN
  truncToInt (pitchValue * (scale : ℚ))

/-- Source `sendPitchBend(double pitchValue, Channel channel)`, on the exact rational model of
the double. -/
def sendPitchBendDouble (pitchValue : ℚ) (channel : Nat) (m : MidiCommonInterface) :
    MidiCommonInterface :=
  sendPitchBend (pitchBendValueOfDouble pitchValue) channel m

/-- Source `sendPolyPressure`. -/
def sendPolyPressure (note pressure : Nat) (channel : Nat) (m : MidiCommonInterface) :
    MidiCommonInterface :=
  sendChannelMessage MidiType.AfterTouchPoly note pressure channel m

/-- Source `sendAfterTouch(DataByte pressure, Channel channel)`. -/
def sendAfterTouch (pressure : Nat) (channel : Nat) (m : MidiCommonInterface) :
    MidiCommonInterface :=
  sendChannelMessage MidiType.AfterTouchChannel pressure 0 channel m

/-- Source `sendAfterTouch(DataByte note, DataByte pressure, Channel channel)`. -/
def sendAfterTouchNote (note pressure : Nat) (channel : Nat)
    (m : MidiCommonInterface) : MidiCommonInterface :=
  sendChannelMessage MidiType.AfterTouchChannel note pressure channel m

/-- Source `sendSysEx`: the body is a TODO. -/
def sendSysEx (_array : List Nat) (_inLength : Nat) (m : MidiCommonInterface) :
    MidiCommonInterface :=
  m

/-- Source `sendTimeCodeQuarterFrame(DataByte data)`. -/
def sendTimeCodeQuarterFrame (data : Nat) (m : MidiCommonInterface) :
    MidiCommonInterface :=
  sendSystemCommonMessage MidiType.TimeCodeQuarterFrame data 0 m

/-- Source `sendTimeCodeQuarterFrame(DataByte typeNibble, DataByte valuesNibble)`. -/
def sendTimeCodeQuarterFrameNibbles (typeNibble valuesNibble : Nat)
    (m : MidiCommonInterface) : MidiCommonInterface :=
  let data : Nat := (((typeNibble &&& 0x07) <<< 4) ||| (valuesNibble &&& 0x0f)) % 256
  sendTimeCodeQuarterFrame data m

/-- Source `sendSongPosition(unsigned short beats)`. -/
def sendSongPosition (beats : Nat) (m : MidiCommonInterface) : MidiCommonInterface :=
  let data1 : Nat := (beats &&& 0x7f) % 256
  let data2 : Nat := ((beats >>> 7) &&& 0x7f) % 256
  sendSystemCommonMessage MidiType.SongPosition data1 data2 m

/-- Source `sendSongSelect`. -/
def sendSongSelect (number : Nat) (m : MidiCommonInterface) : MidiCommonInterface :=
  sendSystemCommonMessage MidiType.SongSelect (number &&& 0x7f) 0 m

/-- Source `sendTuneRequest`. -/
def sendTuneRequest (m : MidiCommonInterface) : MidiCommonInterface :=
  sendSystemCommonMessage MidiType.TuneRequest 0 0 m

/-- Source `sendActiveSensing`. -/
def sendActiveSensing (m : MidiCommonInterface) : MidiCommonInterface :=
  sendRealTimeMessage MidiType.ActiveSensing m

/-- Source `sendStart`. -/
def sendStart (m : MidiCommonInterface) : MidiCommonInterface :=
  sendRealTimeMessage MidiType.Start m

/-- Source `sendContinue`. -/
def sendContinue (m : MidiCommonInterface) : MidiCommonInterface :=
  sendRealTimeMessage MidiType.Continue m

/-- Source `sendStop`. -/
def sendStop (m : MidiCommonInterface) : MidiCommonInterface :=
  sendRealTimeMessage MidiType.Stop m

/-- Source `sendClock`. -/
def sendClock (m : MidiCommonInterface) : MidiCommonInterface :=
  sendRealTimeMessage MidiType.Clock m

/-- Source `sendTick`. -/
def sendTick (m : MidiCommonInterface) : MidiCommonInterface :=
  sendRealTimeMessage MidiType.Tick m

/-- Source `sendReset`. -/
def sendReset (m : MidiCommonInterface) : MidiCommonInterface :=
  sendRealTimeMessage MidiType.SystemReset m

/-- Source `setHandleNoteOff`. -/
def setHandleNoteOff (fptr : Option Nat) (m : MidiCommonInterface) : MidiCommonInterface :=
  { m with _noteOffCallback := fptr }

/-- Source `setHandleNoteOn`. -/
def setHandleNoteOn (fptr : Option Nat) (m : MidiCommonInterface) : MidiCommonInterface :=
  { m with _noteOnCallback := fptr }

/-- Source `setHandleAfterTouchPoly`. -/
def setHandleAfterTouchPoly (fptr : Option Nat) (m : MidiCommonInterface) : MidiCommonInterface :=
  { m with _afterTouchPolyCallback := fptr }

/-- Source `setHandleControlChange`. -/
def setHandleControlChange (fptr : Option Nat) (m : MidiCommonInterface) : MidiCommonInterface :=
  { m with _controlChangeCallback := fptr }

/-- Source `setHandleProgramChange`. -/
def setHandleProgramChange (fptr : Option Nat) (m : MidiCommonInterface) : MidiCommonInterface :=
  { m with _programChangeCallback := fptr }

/-- Source `setHandleAfterTouchChannel`. -/
def setHandleAfterTouchChannel (fptr : Option Nat) (m : MidiCommonInterface) : MidiCommonInterface :=
  { m with _afterTouchChannelCallback := fptr }

/-- Source `setHandlePitchBend`. -/
def setHandlePitchBend (fptr : Option Nat) (m : MidiCommonInterface) : MidiCommonInterface :=
  { m with _pitchBendCallback := fptr }

/-- Source `setHandleSysEx`. -/
def setHandleSysEx (fptr : Option Nat) (m : MidiCommonInterface) : MidiCommonInterface :=
  { m with _sysExCallback := fptr }

/-- Source `setHandleTimeCodeQuarterFrame`. -/
def setHandleTimeCodeQuarterFrame (fptr : Option Nat) (m : MidiCommonInterface) : MidiCommonInterface :=
  { m with _timeCodeQuarterFrameCallback := fptr }

/-- Source `setHandleSongPosition`. -/
def setHandleSongPosition (fptr : Option Nat) (m : MidiCommonInterface) : MidiCommonInterface :=
  { m with _songPositionCallback := fptr }

/-- Source `setHandleSongSelect`. -/
def setHandleSongSelect (fptr : Option Nat) (m : MidiCommonInterface) : MidiCommonInterface :=
  { m with _songSelectCallback := fptr }

/-- Source `setHandleTuneRequest`. -/
def setHandleTuneRequest (fptr : Option Nat) (m : MidiCommonInterface) : MidiCommonInterface :=
  { m with _tuneRequestCallback := fptr }

/-- Source `setHandleClock`. -/
def setHandleClock (fptr : Option Nat) (m : MidiCommonInterface) : MidiCommonInterface :=
  { m with _clockCallback := fptr }

/-- Source `setHandleStart`. -/
def setHandleStart (fptr : Option Nat) (m : MidiCommonInterface) : MidiCommonInterface :=
  { m with _startCallback := fptr }

/-- Source `setHandleContinue`. -/
def setHandleContinue (fptr : Option Nat) (m : MidiCommonInterface) : MidiCommonInterface :=
  { m with _continueCallback := fptr }

/-- Source `setHandleStop`. -/
def setHandleStop (fptr : Option Nat) (m : MidiCommonInterface) : MidiCommonInterface :=
  { m with _stopCallback := fptr }

/-- Source `setHandleActiveSensing`. -/
def setHandleActiveSensing (fptr : Option Nat) (m : MidiCommonInterface) : MidiCommonInterface :=
  { m with _activeSensingCallback := fptr }

/-- Source `setHandleReset`. -/
def setHandleReset (fptr : Option Nat) (m : MidiCommonInterface) : MidiCommonInterface :=
  { m with _resetCallback := fptr }

/-- One call of a public `send*` member of the source class, with its arguments. -/
inductive SendCall where
  | sendNoteOn (note velocity channel : Nat)
  | sendNoteOff (note velocity channel : Nat)
  | sendProgramChange (number channel : Nat)
  | sendControlChange (number value channel : Nat)
  | sendPitchBend (value : Int) (channel : Nat)
  | sendPitchBendDouble (pitchValue : ℚ) (channel : Nat)
  | sendPolyPressure (note pressure channel : Nat)
  | sendAfterTouch (pressure channel : Nat)
  | sendAfterTouchNote (note pressure channel : Nat)
  | sendSysEx (array : List Nat) (inLength : Nat)
  | sendTimeCodeQuarterFrameNibbles (typeNibble valuesNibble : Nat)
  | sendTimeCodeQuarterFrame (data : Nat)
  | sendSongPosition (beats : Nat)
  | sendSongSelect (number : Nat)
  | sendTuneRequest
  | sendActiveSensing
  | sendStart
  | sendContinue
  | sendStop
  | sendClock
  | sendTick
  | sendReset

/-- Perform one call of a public `send*` member on the object. -/
def SendCall.run : SendCall → MidiCommonInterface → MidiCommonInterface
  | .sendNoteOn note velocity channel => MidiCommonInterface.sendNoteOn note velocity channel
  | .sendNoteOff note velocity channel => MidiCommonInterface.sendNoteOff note velocity channel
  | .sendProgramChange number channel => MidiCommonInterface.sendProgramChange number channel
  | .sendControlChange number value channel =>
      MidiCommonInterface.sendControlChange number value channel
  | .sendPitchBend value channel => MidiCommonInterface.sendPitchBend value channel
  | .sendPitchBendDouble pitchValue channel =>
      MidiCommonInterface.sendPitchBendDouble pitchValue channel
  | .sendPolyPressure note pressure channel =>
      MidiCommonInterface.sendPolyPressure note pressure channel
  | .sendAfterTouch pressure channel => MidiCommonInterface.sendAfterTouch pressure channel
  | .sendAfterTouchNote note pressure channel =>
      MidiCommonInterface.sendAfterTouchNote note pressure channel
  | .sendSysEx array inLength => MidiCommonInterface.sendSysEx array inLength
  | .sendTimeCodeQuarterFrameNibbles typeNibble valuesNibble =>
      MidiCommonInterface.sendTimeCodeQuarterFrameNibbles typeNibble valuesNibble
  | .sendTimeCodeQuarterFrame data => MidiCommonInterface.sendTimeCodeQuarterFrame data
  | .sendSongPosition beats => MidiCommonInterface.sendSongPosition beats
  | .sendSongSelect number => MidiCommonInterface.sendSongSelect number
  | .sendTuneRequest => MidiCommonInterface.sendTuneRequest
  | .sendActiveSensing => MidiCommonInterface.sendActiveSensing
  | .sendStart => MidiCommonInterface.sendStart
  | .sendContinue => MidiCommonInterface.sendContinue
  | .sendStop => MidiCommonInterface.sendStop
  | .sendClock => MidiCommonInterface.sendClock
  | .sendTick => MidiCommonInterface.sendTick
  | .sendReset => MidiCommonInterface.sendReset

/-- The operation `op` emits exactly `bs`: from every object state it hands the bytes `bs`, in
that order and nothing else, to the transport, and changes no data member. -/
def Emits (op : MidiCommonInterface → MidiCommonInterface) (bs : List Nat) : Prop :=
  ∀ m : MidiCommonInterface, op m = { m with wire := m.wire ++ bs }

/-- A status byte followed by data bytes: the first byte of `bs`, if any, is a byte with bit 7
set, and every later byte has bit 7 clear. -/
def StatusThenData : List Nat → Prop
  | [] => True
  | s :: ds => (0x80 ≤ s ∧ s < 0x100) ∧ ∀ d ∈ ds, d < 0x80

/-- The operation `op` emits, from every object state, one fixed byte sequence that is empty
or a status byte followed by data bytes. -/
def EmitsStatusThenData (op : MidiCommonInterface → MidiCommonInterface) : Prop :=
  ∃ bs : List Nat, Emits op bs ∧ StatusThenData bs

end MidiCommonInterface

/-- The seven system real-time types of the data model, in code order. -/
def realTimeTypes : List Nat :=
  [MidiType.Clock, MidiType.Tick, MidiType.Start, MidiType.Continue, MidiType.Stop,
   MidiType.ActiveSensing, MidiType.SystemReset]

/-- The four system-common types of the data model, in code order. -/
def systemCommonTypes : List Nat :=
  [MidiType.TimeCodeQuarterFrame, MidiType.SongPosition, MidiType.SongSelect,
   MidiType.TuneRequest]

/-- The eighteen inbound event kinds that have a handler slot in the source class. -/
inductive EventKind where
  | NoteOff
  | NoteOn
  | AfterTouchPoly
  | ControlChange
  | ProgramChange
  | AfterTouchChannel
  | PitchBend
  | SysEx
  | TimeCodeQuarterFrame
  | SongPosition
  | SongSelect
  | TuneRequest
  | Clock
  | Start
  | Continue
  | Stop
  | ActiveSensing
  | Reset
  deriving DecidableEq

/-- The registration member `setHandle*` of the source class for an event kind. -/
def EventKind.setHandle : EventKind → Option Nat → MidiCommonInterface → MidiCommonInterface
  | .NoteOff => MidiCommonInterface.setHandleNoteOff
  | .NoteOn => MidiCommonInterface.setHandleNoteOn
  | .AfterTouchPoly => MidiCommonInterface.setHandleAfterTouchPoly
  | .ControlChange => MidiCommonInterface.setHandleControlChange
  | .ProgramChange => MidiCommonInterface.setHandleProgramChange
  | .AfterTouchChannel => MidiCommonInterface.setHandleAfterTouchChannel
  | .PitchBend => MidiCommonInterface.setHandlePitchBend
  | .SysEx => MidiCommonInterface.setHandleSysEx
  | .TimeCodeQuarterFrame => MidiCommonInterface.setHandleTimeCodeQuarterFrame
  | .SongPosition => MidiCommonInterface.setHandleSongPosition
  | .SongSelect => MidiCommonInterface.setHandleSongSelect
  | .TuneRequest => MidiCommonInterface.setHandleTuneRequest
  | .Clock => MidiCommonInterface.setHandleClock
  | .Start => MidiCommonInterface.setHandleStart
  | .Continue => MidiCommonInterface.setHandleContinue
  | .Stop => MidiCommonInterface.setHandleStop
  | .ActiveSensing => MidiCommonInterface.setHandleActiveSensing
  | .Reset => MidiCommonInterface.setHandleReset

/-- The callback data member of the source class for an event kind. -/
def EventKind.slot : EventKind → MidiCommonInterface → Option Nat
  | .NoteOff => MidiCommonInterface._noteOffCallback
  | .NoteOn => MidiCommonInterface._noteOnCallback
  | .AfterTouchPoly => MidiCommonInterface._afterTouchPolyCallback
  | .ControlChange => MidiCommonInterface._controlChangeCallback
  | .ProgramChange => MidiCommonInterface._programChangeCallback
  | .AfterTouchChannel => MidiCommonInterface._afterTouchChannelCallback
  | .PitchBend => MidiCommonInterface._pitchBendCallback
  | .SysEx => MidiCommonInterface._sysExCallback
  | .TimeCodeQuarterFrame => MidiCommonInterface._timeCodeQuarterFrameCallback
  | .SongPosition => MidiCommonInterface._songPositionCallback
  | .SongSelect => MidiCommonInterface._songSelectCallback
  | .TuneRequest => MidiCommonInterface._tuneRequestCallback
  | .Clock => MidiCommonInterface._clockCallback
  | .Start => MidiCommonInterface._startCallback
  | .Continue => MidiCommonInterface._continueCallback
  | .Stop => MidiCommonInterface._stopCallback
  | .ActiveSensing => MidiCommonInterface._activeSensingCallback
  | .Reset => MidiCommonInterface._resetCallback

/-! ## Auxiliary facts -/

open MidiCommonInterface

theorem getStatus_of_pos (t c : Nat) (h : 1 ≤ c) :
    getStatus t c = ((t &&& 0xf0) ||| ((c - 1) &&& 0x0f)) % 256 := by
  obtain ⟨k, rfl⟩ : ∃ k, c = k + 1 := ⟨c - 1, by omega⟩
  have hk : ((k + 1 : Nat) : Int) - 1 = (k : Int) := by push_cast; ring
  unfold getStatus
  rw [hk]
  show ((((t &&& 0xf0) ||| (k &&& 0x0f) : Nat) : Int) % 256).toNat = _
  simp
  omega

theorem getStatus_channelType :
    ∀ t ∈ channelMessageTypes, ∀ c : Fin 17, 1 ≤ c.val →
      getStatus t c.val = t ||| (c.val - 1) := by
  intro t ht c hc
  rw [getStatus_of_pos t c.val hc]
  revert t c
  decide

theorem getStatus_eq_or (t c : Nat) (ht : t ∈ channelMessageTypes) (h1 : 1 ≤ c) (h16 : c ≤ 16) :
    getStatus t c = t ||| (c - 1) :=
  getStatus_channelType t ht ⟨c, by omega⟩ h1

theorem emits_nil_iff (op : MidiCommonInterface → MidiCommonInterface) :
    Emits op [] ↔ ∀ m, op m = m := by
  simp [Emits]

theorem channelType_bounds (t : Nat) (ht : t ∈ channelMessageTypes) :
    0x80 ≤ t ∧ t ≤ MidiType.PitchBend := by
  revert t
  decide

theorem sendChannelMessage_channelType (t d1 d2 c : Nat) (m : MidiCommonInterface)
    (ht : t ∈ channelMessageTypes) (h1 : 1 ≤ c) (h16 : c ≤ 16) :
    sendChannelMessage t d1 d2 c m =
      if t ≠ MidiType.ProgramChange ∧ t ≠ MidiType.AfterTouchChannel then
        write3 (t ||| (c - 1)) (d1 &&& 0x7f) (d2 &&& 0x7f) m
      else
        write2 (t ||| (c - 1)) (d1 &&& 0x7f) m := by
  obtain ⟨hlo, hhi⟩ := channelType_bounds t ht
  have hguard : ¬ (c ≥ MIDI_CHANNEL_OFF ∨ c = MIDI_CHANNEL_OMNI ∨ t < 0x80) := by
    simp only [MIDI_CHANNEL_OFF, MIDI_CHANNEL_OMNI]
    omega
  unfold sendChannelMessage
  rw [if_neg hguard, if_pos hhi]
  simp only [getStatus_eq_or t c ht h1 h16]

theorem and_7f_lt (x : Nat) : x &&& 0x7f < 0x80 :=
  Nat.lt_succ_of_le Nat.and_le_right

theorem and_7f_narrow (x : Nat) : ((x &&& 0x7f) % 256) &&& 0x7f = x &&& 0x7f := by
  have h := and_7f_lt x
  rw [Nat.mod_eq_of_lt (by omega), Nat.and_assoc]
  rfl

theorem status_channelType_range :
    ∀ t ∈ channelMessageTypes, ∀ c : Fin 17, 1 ≤ c.val →
      0x80 ≤ t ||| (c.val - 1) ∧ t ||| (c.val - 1) < 0x100 := by
  decide

theorem sendChannelMessage_statusThenData (t d1 d2 c : Nat) (ht : t ∈ channelMessageTypes) :
    EmitsStatusThenData (sendChannelMessage t d1 d2 c) := by
  by_cases hc : 1 ≤ c ∧ c ≤ 16
  · obtain ⟨h1, h16⟩ := hc
    have hs := status_channelType_range t ht ⟨c, Nat.lt_succ_of_le h16⟩ h1
    by_cases hne : t ≠ MidiType.ProgramChange ∧ t ≠ MidiType.AfterTouchChannel
    · refine ⟨[t ||| (c - 1), d1 &&& 0x7f, d2 &&& 0x7f], fun m => ?_, hs, ?_⟩
      · rw [sendChannelMessage_channelType t d1 d2 c m ht h1 h16, if_pos hne]
        rfl
      · intro d hd
        simp only [List.mem_cons, List.mem_singleton, List.not_mem_nil, or_false] at hd
        rcases hd with rfl | rfl
        · exact and_7f_lt d1
        · exact and_7f_lt d2
    · refine ⟨[t ||| (c - 1), d1 &&& 0x7f], fun m => ?_, hs, ?_⟩
      · rw [sendChannelMessage_channelType t d1 d2 c m ht h1 h16, if_neg hne]
        rfl
      · intro d hd
        simp only [List.mem_singleton] at hd
        subst hd
        exact and_7f_lt d1
  · refine ⟨[], fun m => ?_, trivial⟩
    have hguard : c ≥ MIDI_CHANNEL_OFF ∨ c = MIDI_CHANNEL_OMNI ∨ t < 0x80 := by
      simp only [MIDI_CHANNEL_OFF, MIDI_CHANNEL_OMNI]
      omega
    unfold sendChannelMessage
    rw [if_pos hguard, List.append_nil]

theorem toUnsigned_of_bend (v : Int) (hlo : -8192 ≤ v) (hhi : v ≤ 8191) :
    toUnsigned (v - MIDI_PITCHBEND_MIN) = (v - MIDI_PITCHBEND_MIN).toNat := by
  unfold toUnsigned
  simp only [MIDI_PITCHBEND_MIN]
  rw [Int.emod_eq_of_lt (by omega) (by omega)]

theorem pitchBendValueOfDouble_one : pitchBendValueOfDouble 1 = MIDI_PITCHBEND_MAX := by
  simp [pitchBendValueOfDouble, truncToInt]

theorem emits_nil_of_id : Emits (fun m => m) [] :=
  fun m => by rw [List.append_nil]

theorem sendRealTimeMessage_emits (t : Nat) : ∃ bs, Emits (sendRealTimeMessage t) bs := by
  by_cases h : t = MidiType.Clock ∨ t = MidiType.Start ∨ t = MidiType.Stop ∨
      t = MidiType.Continue ∨ t = MidiType.ActiveSensing ∨ t = MidiType.SystemReset
  · refine ⟨[t], fun m => ?_⟩
    unfold sendRealTimeMessage
    rw [if_pos h]
    rfl
  · refine ⟨[], fun m => ?_⟩
    unfold sendRealTimeMessage
    rw [if_neg h, List.append_nil]

theorem sendChannelMessage_emits (t d1 d2 c : Nat) :
    ∃ bs, Emits (sendChannelMessage t d1 d2 c) bs := by
  by_cases hg : c ≥ MIDI_CHANNEL_OFF ∨ c = MIDI_CHANNEL_OMNI ∨ t < 0x80
  · refine ⟨[], fun m => ?_⟩
    unfold sendChannelMessage
    rw [if_pos hg, List.append_nil]
  · by_cases hp : t ≤ MidiType.PitchBend
    · by_cases hne : t ≠ MidiType.ProgramChange ∧ t ≠ MidiType.AfterTouchChannel
      · refine ⟨[getStatus t c, d1 &&& 0x7f, d2 &&& 0x7f], fun m => ?_⟩
        unfold sendChannelMessage
        rw [if_neg hg, if_pos hp]
        simp only []
        rw [if_pos hne]
        rfl
      · refine ⟨[getStatus t c, d1 &&& 0x7f], fun m => ?_⟩
        unfold sendChannelMessage
        rw [if_neg hg, if_pos hp]
        simp only []
        rw [if_neg hne]
        rfl
    · by_cases hr : t ≥ MidiType.Clock ∧ t ≤ MidiType.SystemReset
      · obtain ⟨bs, hbs⟩ := sendRealTimeMessage_emits t
        refine ⟨bs, fun m => ?_⟩
        unfold sendChannelMessage
        rw [if_neg hg, if_neg hp, if_pos hr]
        exact hbs m
      · refine ⟨[], fun m => ?_⟩
        unfold sendChannelMessage
        rw [if_neg hg, if_neg hp, if_neg hr, List.append_nil]

theorem sendCall_emits (call : SendCall) : ∃ bs, Emits call.run bs := by
  cases call with
  | sendNoteOn note velocity channel => exact sendChannelMessage_emits _ _ _ _
  | sendNoteOff note velocity channel => exact sendChannelMessage_emits _ _ _ _
  | sendProgramChange number channel => exact sendChannelMessage_emits _ _ _ _
  | sendControlChange number value channel => exact sendChannelMessage_emits _ _ _ _
  | sendPitchBend value channel => exact sendChannelMessage_emits _ _ _ _
  | sendPitchBendDouble pitchValue channel => exact sendChannelMessage_emits _ _ _ _
  | sendPolyPressure note pressure channel => exact sendChannelMessage_emits _ _ _ _
  | sendAfterTouch pressure channel => exact sendChannelMessage_emits _ _ _ _
  | sendAfterTouchNote note pressure channel => exact sendChannelMessage_emits _ _ _ _
  | sendSysEx array inLength => exact ⟨[], emits_nil_of_id⟩
  | sendTimeCodeQuarterFrameNibbles typeNibble valuesNibble => exact ⟨[], emits_nil_of_id⟩
  | sendTimeCodeQuarterFrame data => exact ⟨[], emits_nil_of_id⟩
  | sendSongPosition beats => exact ⟨[], emits_nil_of_id⟩
  | sendSongSelect number => exact ⟨[], emits_nil_of_id⟩
  | sendTuneRequest => exact ⟨[], emits_nil_of_id⟩
  | sendActiveSensing => exact sendRealTimeMessage_emits MidiType.ActiveSensing
  | sendStart => exact sendRealTimeMessage_emits MidiType.Start
  | sendContinue => exact sendRealTimeMessage_emits MidiType.Continue
  | sendStop => exact sendRealTimeMessage_emits MidiType.Stop
  | sendClock => exact sendRealTimeMessage_emits MidiType.Clock
  | sendTick => exact sendRealTimeMessage_emits MidiType.Tick
  | sendReset => exact sendRealTimeMessage_emits MidiType.SystemReset

theorem emits_unique (op : MidiCommonInterface → MidiCommonInterface) (bs bs' : List Nat)
    (h : Emits op bs) (h' : Emits op bs') : bs = bs' := by
  have e := (h (MidiCommonInterface.new 0 false)).symm.trans (h' (MidiCommonInterface.new 0 false))
  have w := congrArg MidiCommonInterface.wire e
  exact List.append_cancel_left w

theorem sendRealTimeMessage_listed (t : Nat)
    (h : t = MidiType.Clock ∨ t = MidiType.Start ∨ t = MidiType.Stop ∨
      t = MidiType.Continue ∨ t = MidiType.ActiveSensing ∨ t = MidiType.SystemReset) :
    Emits (sendRealTimeMessage t) [t] := by
  intro m
  unfold sendRealTimeMessage
  rw [if_pos h]
  rfl

theorem sendRealTimeMessage_unlisted (t : Nat)
    (h : ¬ (t = MidiType.Clock ∨ t = MidiType.Start ∨ t = MidiType.Stop ∨
      t = MidiType.Continue ∨ t = MidiType.ActiveSensing ∨ t = MidiType.SystemReset)) :
    Emits (sendRealTimeMessage t) [] := by
  intro m
  unfold sendRealTimeMessage
  rw [if_neg h, List.append_nil]
theorem land_neg_one_0f : Int.land (-1) 0x0f = 15 := by
  show ((Nat.ldiff 15 0 : Nat) : Int) = 15
  congr 1
  simp [Nat.ldiff, Nat.bitwise]

theorem land_pred_0f (c : Nat) : Int.land ((c : Int) - 1) 0x0f = (((c + 15) % 16 : Nat) : Int) := by
  cases c with
  | zero =>
    have h : ((0 : Nat) : Int) - 1 = -1 := by decide
    rw [h, land_neg_one_0f]
    rfl
  | succ k =>
    have hk : ((k + 1 : Nat) : Int) - 1 = (k : Int) := by push_cast; ring
    rw [hk]
    show (((k &&& 0x0f : Nat)) : Int) = _
    congr 1
    have h15 : k &&& 0x0f = k % 16 := Nat.and_pow_two_sub_one_eq_mod k 4
    rw [h15]
    omega

theorem status_int_eq (t c : Nat) :
    Int.lor (Int.land (t : Int) 0xf0) (Int.land ((c : Int) - 1) 0x0f) =
      ((((t &&& 0xf0) ||| ((c + 15) % 16) : Nat)) : Int) := by
  rw [land_pred_0f]
  rfl

theorem status_nibbles :
    ∀ t ∈ channelMessageTypes, ∀ x : Fin 16,
      ((t &&& 0xf0) ||| x.val) = t + x.val ∧ (t + x.val) &&& 0xF0 = t := by
  decide

theorem sendPitchBend_emits_halves (v : Int) (c : Nat) (hlo : -8192 ≤ v) (hhi : v ≤ 8191)
    (hc1 : 1 ≤ c) (hc16 : c ≤ 16) :
    Emits (sendPitchBend v c)
      [0xE0 ||| (c - 1), (v - MIDI_PITCHBEND_MIN).toNat &&& 0x7F,
        ((v - MIDI_PITCHBEND_MIN).toNat >>> 7) &&& 0x7F] := by
  intro m
  unfold sendPitchBend
  simp only []
  rw [toUnsigned_of_bend v hlo hhi,
    sendChannelMessage_channelType MidiType.PitchBend _ _ c m (by decide) hc1 hc16,
    if_pos (by decide), and_7f_narrow, and_7f_narrow]
  rfl

theorem join_halves (b : Nat) (hb : b < 16384) :
    (b &&& 0x7F) ||| (((b >>> 7) &&& 0x7F) <<< 7) = b := by
  have h1 : b &&& 0x7F = b % 128 := Nat.and_pow_two_sub_one_eq_mod b 7
  have h2 : (b >>> 7) &&& 0x7F = (b >>> 7) % 128 := Nat.and_pow_two_sub_one_eq_mod _ 7
  have h3 : b >>> 7 = b / 128 := by rw [Nat.shiftRight_eq_div_pow]
  have h4 : b / 128 % 128 = b / 128 := Nat.mod_eq_of_lt (by omega)
  have h5 : (b / 128) <<< 7 = 2 ^ 7 * (b / 128) := by rw [Nat.shiftLeft_eq, Nat.mul_comm]
  have h6 : b % 128 < 2 ^ 7 := Nat.mod_lt b (by decide)
  rw [h1, h2, h3, h4, Nat.or_comm, h5, ← Nat.mul_add_lt_is_or h6 (b / 128)]
  omega

theorem channelType_status_classified :
    ∀ t ∈ channelMessageTypes, ∀ c : Fin 17, 1 ≤ c.val →
      getTypeFromStatusByte (t ||| (c.val - 1)) = t ∧
      getChannelFromStatusByte (t ||| (c.val - 1)) = c.val ∧
      isChannelMessage (getTypeFromStatusByte (t ||| (c.val - 1))) = true := by
  decide

theorem getTypeFromStatusByte_data (b : Nat) (h : b < 0x80) :
    getTypeFromStatusByte b = MidiType.InvalidType := by
  unfold getTypeFromStatusByte
  rw [if_pos (Or.inl h)]

theorem sendPitchBend_decode (v : Int) (c : Nat) (hlo : -8192 ≤ v) (hhi : v ≤ 8191)
    (hc1 : 1 ≤ c) (hc16 : c ≤ 16) (s lsb msb : Nat)
    (h : Emits (sendPitchBend v c) [s, lsb, msb]) :
    (((lsb ||| (msb <<< 7) : Nat)) : Int) + MIDI_PITCHBEND_MIN = v := by
  have e := emits_unique _ _ _ h (sendPitchBend_emits_halves v c hlo hhi hc1 hc16)
  simp only [List.cons.injEq, and_true] at e
  obtain ⟨_, hl, hm⟩ := e
  have hb : (v - MIDI_PITCHBEND_MIN).toNat < 16384 := by
    simp only [MIDI_PITCHBEND_MIN]
    omega
  rw [hl, hm, join_halves _ hb]
  simp only [MIDI_PITCHBEND_MIN]
  omega

theorem getTypeFromStatusByte_channel_range (s : Nat) (h1 : 0x80 ≤ s) (h2 : s < 0xF0) :
    getTypeFromStatusByte s ∈ channelMessageTypes := by
  interval_cases s <;> decide

theorem isChannelMessage_eq_true_iff (t : Nat) :
    isChannelMessage t = true ↔ t ∈ channelMessageTypes := by
  simp only [isChannelMessage, channelMessageTypes, Bool.or_eq_true, beq_iff_eq, List.mem_cons,
    List.mem_singleton, List.not_mem_nil, or_false]
  tauto

/-! ## Theorems -/

/-- C1: for every channel in 1..16 and each of the seven channel-message types, the channel
read back from the status byte built by `getStatus` is the channel given. -/
theorem channel_roundtrip (t : Nat) (c : Nat) (ht : t ∈ channelMessageTypes)
    (h1 : 1 ≤ c) (h16 : c ≤ 16) :
    getChannelFromStatusByte (getStatus t c) = c := by
  rw [getStatus_eq_or t c ht h1 h16]
  unfold getChannelFromStatusByte
  have : ∀ t ∈ channelMessageTypes, ∀ c : Fin 17, 1 ≤ c.val →
      (((t ||| (c.val - 1)) &&& 0x0f) + 1) % 256 = c.val := by decide
  exact this t ht ⟨c, Nat.lt_succ_of_le h16⟩ h1

theorem channel_roundtrip_witness :
    MidiType.ControlChange ∈ channelMessageTypes ∧ 1 ≤ 10 ∧ 10 ≤ 16 ∧
      getChannelFromStatusByte (getStatus MidiType.ControlChange 10) = 10 :=
  ⟨by decide, by decide, by decide,
    channel_roundtrip MidiType.ControlChange 10 (by decide) (by decide) (by decide)⟩

/-- C2: classification of a byte `s` in 0..255 by `getTypeFromStatusByte`: `InvalidType` when
`s < 0x80` or `s` is one of 0xF4, 0xF5, 0xF9, 0xFD; otherwise the type with code
`s & 0xF0` (one of the seven channel-message types) when `s < 0xF0`, and the type with
code `s` itself when `s >= 0xF0`. -/
theorem getTypeFromStatusByte_cases (s : Nat) (hs : s < 256) :
    (s < 0x80 ∨ s = 0xF4 ∨ s = 0xF5 ∨ s = 0xF9 ∨ s = 0xFD →
      getTypeFromStatusByte s = MidiType.InvalidType) ∧
    (0x80 ≤ s → s < 0xF0 →
      getTypeFromStatusByte s = s &&& 0xF0 ∧ getTypeFromStatusByte s ∈ channelMessageTypes) ∧
    (0xF0 ≤ s → s ≠ 0xF4 → s ≠ 0xF5 → s ≠ 0xF9 → s ≠ 0xFD →
      getTypeFromStatusByte s = s) := by
  refine ⟨fun h => ?_, fun h1 h2 => ?_, fun h1 h4 h5 h9 hd => ?_⟩
  · unfold getTypeFromStatusByte
    rw [if_pos h]
  · have heq : getTypeFromStatusByte s = s &&& 0xF0 := by
      unfold getTypeFromStatusByte
      rw [if_neg (by omega), if_pos h2]
    refine ⟨heq, ?_⟩
    rw [heq]
    clear heq hs
    interval_cases s <;> decide
  · unfold getTypeFromStatusByte
    rw [if_neg (by omega), if_neg (by omega)]

theorem getTypeFromStatusByte_cases_witness :
    (0x93 : Nat) < 256 ∧ getTypeFromStatusByte 0x93 = MidiType.NoteOn ∧
      getTypeFromStatusByte 0xF9 = MidiType.InvalidType ∧
      getTypeFromStatusByte 0xF8 = MidiType.Clock :=
  ⟨by decide,
    ((getTypeFromStatusByte_cases 0x93 (by decide)).2.1 (by decide) (by decide)).1,
    (getTypeFromStatusByte_cases 0xF9 (by decide)).1 (by decide),
    (getTypeFromStatusByte_cases 0xF8 (by decide)).2.2 (by decide) (by decide) (by decide)
      (by decide) (by decide)⟩

/-- C3: on a channel `c` in 1..16, with data bytes `d1`, `d2` in 0..255, a two-data-byte channel
message (`sendChannelMessage` with type NoteOn, NoteOff, ControlChange, AfterTouchPoly or
PitchBend, hence `sendNoteOn`, `sendNoteOff`, `sendControlChange`, `sendPolyPressure`) emits
exactly the three bytes `type | (c - 1)`, `d1 & 0x7F`, `d2 & 0x7F`, in that order; and
`sendNoteOn(60, 100, 1)` emits exactly `0x90, 60, 100`. -/
theorem two_data_byte_message (c d1 d2 : Nat) (hc1 : 1 ≤ c) (hc16 : c ≤ 16)
    (_hd1 : d1 < 256) (_hd2 : d2 < 256) :
    (∀ t ∈ [MidiType.NoteOn, MidiType.NoteOff, MidiType.ControlChange,
        MidiType.AfterTouchPoly, MidiType.PitchBend],
      Emits (sendChannelMessage t d1 d2 c) [t ||| (c - 1), d1 &&& 0x7F, d2 &&& 0x7F]) ∧
    Emits (sendNoteOn d1 d2 c) [0x90 ||| (c - 1), d1 &&& 0x7F, d2 &&& 0x7F] ∧
    Emits (sendNoteOff d1 d2 c) [0x80 ||| (c - 1), d1 &&& 0x7F, d2 &&& 0x7F] ∧
    Emits (sendControlChange d1 d2 c) [0xB0 ||| (c - 1), d1 &&& 0x7F, d2 &&& 0x7F] ∧
    Emits (sendPolyPressure d1 d2 c) [0xA0 ||| (c - 1), d1 &&& 0x7F, d2 &&& 0x7F] ∧
    Emits (sendNoteOn 60 100 1) [0x90, 60, 100] := by
  have gen : ∀ t ∈ [MidiType.NoteOn, MidiType.NoteOff, MidiType.ControlChange,
        MidiType.AfterTouchPoly, MidiType.PitchBend],
      Emits (sendChannelMessage t d1 d2 c) [t ||| (c - 1), d1 &&& 0x7F, d2 &&& 0x7F] := by
    intro t ht m
    have htc : t ∈ channelMessageTypes := by
      revert t
      decide
    have hne : t ≠ MidiType.ProgramChange ∧ t ≠ MidiType.AfterTouchChannel := by
      revert t
      decide
    rw [sendChannelMessage_channelType t d1 d2 c m htc hc1 hc16, if_pos hne]
    rfl
  refine ⟨gen, gen MidiType.NoteOn (by decide), gen MidiType.NoteOff (by decide),
    gen MidiType.ControlChange (by decide), gen MidiType.AfterTouchPoly (by decide), ?_⟩
  intro m
  rfl

theorem two_data_byte_message_witness :
    1 ≤ 10 ∧ 10 ≤ 16 ∧ 200 < 256 ∧ 255 < 256 ∧
      Emits (sendControlChange 200 255 10) [0xB9, 72, 127] :=
  ⟨by decide, by decide, by decide, by decide,
    (two_data_byte_message 10 200 255 (by decide) (by decide) (by decide) (by decide)).2.2.2.1⟩

/-- C4: on a channel `c` in 1..16, with a data byte `d` in 0..255, a single-data-byte channel
message (`sendProgramChange(d, c)`, and `sendAfterTouch(d, c)` for channel pressure) emits
exactly the two bytes `type | (c - 1)`, `d & 0x7F` and no third byte; and
`sendProgramChange(5, 2)` emits exactly `0xC1, 5`. -/
theorem one_data_byte_message (c d : Nat) (hc1 : 1 ≤ c) (hc16 : c ≤ 16) (_hd : d < 256) :
    Emits (sendProgramChange d c) [0xC0 ||| (c - 1), d &&& 0x7F] ∧
    Emits (sendAfterTouch d c) [0xD0 ||| (c - 1), d &&& 0x7F] ∧
    Emits (sendProgramChange 5 2) [0xC1, 5] := by
  refine ⟨fun m => ?_, fun m => ?_, fun m => rfl⟩
  · unfold sendProgramChange
    rw [sendChannelMessage_channelType MidiType.ProgramChange d 0 c m (by decide) hc1 hc16,
      if_neg (by decide)]
    rfl
  · unfold sendAfterTouch
    rw [sendChannelMessage_channelType MidiType.AfterTouchChannel d 0 c m (by decide) hc1 hc16,
      if_neg (by decide)]
    rfl

theorem one_data_byte_message_witness :
    1 ≤ 16 ∧ 16 ≤ 16 ∧ 255 < 256 ∧ Emits (sendAfterTouch 255 16) [0xDF, 127] :=
  ⟨by decide, by decide, by decide,
    (one_data_byte_message 16 255 (by decide) (by decide) (by decide)).2.1⟩

/-- C5: `sendChannelMessage(type, d1, d2, channel)` emits zero bytes whenever `channel` is
OMNI (0), `channel` is OFF (17), or `type` is numerically below the first channel-message
code 0x80; and `sendNoteOn(60, 100, OMNI)`, `sendNoteOn(60, 100, OFF)` emit nothing. -/
theorem sendChannelMessage_guard (type d1 d2 channel : Nat)
    (h : channel = MIDI_CHANNEL_OMNI ∨ channel = MIDI_CHANNEL_OFF ∨ type < 0x80) :
    Emits (sendChannelMessage type d1 d2 channel) [] ∧
    Emits (sendNoteOn 60 100 MIDI_CHANNEL_OMNI) [] ∧
    Emits (sendNoteOn 60 100 MIDI_CHANNEL_OFF) [] := by
  refine ⟨fun m => ?_, fun m => ?_, fun m => ?_⟩
  · have hguard : channel ≥ MIDI_CHANNEL_OFF ∨ channel = MIDI_CHANNEL_OMNI ∨ type < 0x80 := by
      rcases h with h | h | h
      · exact Or.inr (Or.inl h)
      · exact Or.inl (Nat.le_of_eq h.symm)
      · exact Or.inr (Or.inr h)
    unfold sendChannelMessage
    rw [if_pos hguard, List.append_nil]
  · simp [sendNoteOn, sendChannelMessage]
  · simp [sendNoteOn, sendChannelMessage]

theorem sendChannelMessage_guard_witness :
    (3 = MIDI_CHANNEL_OMNI ∨ 3 = MIDI_CHANNEL_OFF ∨ MidiType.InvalidType < 0x80) ∧
      Emits (sendChannelMessage MidiType.InvalidType 60 100 3) [] :=
  ⟨by decide, (sendChannelMessage_guard MidiType.InvalidType 60 100 3 (by decide)).1⟩

/-- C6: for every channel-message send operation (`sendNoteOn`, `sendNoteOff`,
`sendProgramChange`, `sendControlChange`, `sendPitchBend(int)`, `sendPolyPressure`, both
`sendAfterTouch` overloads), all data values in 0..255, any `int` bend value and any channel,
the first emitted byte, if any, has bit 7 set and every byte emitted after it has bit 7
clear (is below 0x80). -/
theorem data_bytes_masked (d1 d2 c : Nat) (value : Int) (_hd1 : d1 < 256) (_hd2 : d2 < 256) :
    EmitsStatusThenData (sendNoteOn d1 d2 c) ∧
    EmitsStatusThenData (sendNoteOff d1 d2 c) ∧
    EmitsStatusThenData (sendProgramChange d1 c) ∧
    EmitsStatusThenData (sendControlChange d1 d2 c) ∧
    EmitsStatusThenData (sendPitchBend value c) ∧
    EmitsStatusThenData (sendPolyPressure d1 d2 c) ∧
    EmitsStatusThenData (sendAfterTouch d1 c) ∧
    EmitsStatusThenData (sendAfterTouchNote d1 d2 c) :=
  ⟨sendChannelMessage_statusThenData MidiType.NoteOn d1 d2 c (by decide),
    sendChannelMessage_statusThenData MidiType.NoteOff d1 d2 c (by decide),
    sendChannelMessage_statusThenData MidiType.ProgramChange d1 0 c (by decide),
    sendChannelMessage_statusThenData MidiType.ControlChange d1 d2 c (by decide),
    sendChannelMessage_statusThenData MidiType.PitchBend _ _ c (by decide),
    sendChannelMessage_statusThenData MidiType.AfterTouchPoly d1 d2 c (by decide),
    sendChannelMessage_statusThenData MidiType.AfterTouchChannel d1 0 c (by decide),
    sendChannelMessage_statusThenData MidiType.AfterTouchChannel d1 d2 c (by decide)⟩

theorem data_bytes_masked_witness :
    200 < 256 ∧ 255 < 256 ∧ EmitsStatusThenData (sendNoteOn 200 255 16) ∧
      EmitsStatusThenData (sendPitchBend 100000 0) :=
  ⟨by decide, by decide,
    (data_bytes_masked 200 255 16 0 (by decide) (by decide)).1,
    (data_bytes_masked 200 255 0 100000 (by decide) (by decide)).2.2.2.2.1⟩

/-- C7: for every integer value `v` in MIN..MAX (-8192..8191) and channel `c` in 1..16,
`sendPitchBend(v, c)` emits exactly `0xE0 | (c - 1)`, `bend & 0x7F`, `(bend >> 7) & 0x7F`
where `bend = v - MIN`; and `sendPitchBend(0, 1)` emits `0xE0, 0x00, 0x40`. -/
theorem sendPitchBend_int (v : Int) (c : Nat) (hlo : MIDI_PITCHBEND_MIN ≤ v)
    (hhi : v ≤ MIDI_PITCHBEND_MAX) (hc1 : 1 ≤ c) (hc16 : c ≤ 16) :
    Emits (sendPitchBend v c)
      [0xE0 ||| (c - 1), (v - MIDI_PITCHBEND_MIN).toNat &&& 0x7F,
        ((v - MIDI_PITCHBEND_MIN).toNat >>> 7) &&& 0x7F] ∧
    Emits (sendPitchBend 0 1) [0xE0, 0x00, 0x40] := by
  refine ⟨fun m => ?_, fun m => rfl⟩
  unfold sendPitchBend
  simp only []
  rw [toUnsigned_of_bend v hlo hhi,
    sendChannelMessage_channelType MidiType.PitchBend _ _ c m (by decide) hc1 hc16,
    if_pos (by decide), and_7f_narrow, and_7f_narrow]
  rfl

theorem sendPitchBend_int_witness :
    MIDI_PITCHBEND_MIN ≤ -1 ∧ -1 ≤ MIDI_PITCHBEND_MAX ∧ 1 ≤ 3 ∧ 3 ≤ 16 ∧
      Emits (sendPitchBend (-1) 3) [0xE2, 0x7F, 0x3F] :=
  ⟨by decide, by decide, by decide, by decide,
    (sendPitchBend_int (-1) 3 (by decide) (by decide) (by decide) (by decide)).1⟩

/-- C8: the normalized value 1.0 is emitted exactly as the integer value MAX = 8191, on every
channel: `sendPitchBend(1.0, c)` passes 8191 on to the integer form, so it leaves the object
as `sendPitchBend(MAX, c)` does; on channel 1 both emit `0xE0, 0x7F, 0x7F`. The double is
modelled by an exact rational (the product `1.0 * 8191.0` is exact). -/
theorem sendPitchBend_one_eq_max :
    pitchBendValueOfDouble 1 = MIDI_PITCHBEND_MAX ∧
    (∀ (c : Nat) (m : MidiCommonInterface),
      sendPitchBendDouble 1 c m = sendPitchBend MIDI_PITCHBEND_MAX c m) ∧
    Emits (sendPitchBendDouble 1 1) [0xE0, 0x7F, 0x7F] ∧
    Emits (sendPitchBend MIDI_PITCHBEND_MAX 1) [0xE0, 0x7F, 0x7F] := by
  refine ⟨pitchBendValueOfDouble_one, fun c m => ?_, fun m => ?_, fun m => rfl⟩
  · unfold sendPitchBendDouble
    rw [pitchBendValueOfDouble_one]
  · unfold sendPitchBendDouble
    rw [pitchBendValueOfDouble_one]
    rfl

/-- C9 (evaluation of the code at a negative normalized value): for `pitchValue = -0.5` the
source selects `scale = MIDI_PITCHBEND_MIN` and passes `int(-0.5 * -8192.0) = 4096`, a
positive value, on to the integer form; `sendPitchBend(-0.5, 1)` emits `0xE0, 0x00, 0x60`,
whose 14-bit bend `lsb | msb << 7` is 12288, above the centre 8192. -/
theorem sendPitchBend_double_negative_half :
    pitchBendValueOfDouble (-1 / 2) = 4096 ∧
    ¬ pitchBendValueOfDouble (-1 / 2) ≤ 0 ∧
    Emits (sendPitchBendDouble (-1 / 2) 1) [0xE0, 0x00, 0x60] ∧
    (0x00 ||| (0x60 <<< 7) : Nat) = 12288 ∧ ¬ (12288 ≤ 8192) := by
  have hv : pitchBendValueOfDouble (-1 / 2) = 4096 := by
    have hq : ((-1 / 2 : ℚ) * ((MIDI_PITCHBEND_MIN : Int) : ℚ)) = 4096 := by
      norm_num [MIDI_PITCHBEND_MIN]
    have hneg : ¬ ((-1 / 2 : ℚ) > 0) := by norm_num
    unfold pitchBendValueOfDouble
    simp only [if_neg hneg]
    rw [hq]
    simp [truncToInt]
  refine ⟨hv, ?_, fun m => ?_, by decide, by decide⟩
  · rw [hv]
    decide
  · unfold sendPitchBendDouble
    rw [hv]
    rfl

/-- C10: `sendClock()` appends exactly one byte, the Clock code 0xF8, to the emitted stream
from every object state, changing no earlier byte and no data member (`_runningStatus`,
`_thruActivated`, the handler slots); and a Clock sent between any two other sends `a` and
`b` leaves the bytes of both as they are without it: the stream is `pre`, 0xF8, `post`
where without the Clock it is `pre`, `post`. -/
theorem sendClock_single_byte :
    Emits sendClock [0xF8] ∧
    ∀ (a b : SendCall) (m : MidiCommonInterface), ∃ pre post : List Nat,
      a.run m = { m with wire := m.wire ++ pre } ∧
      b.run (a.run m) = { m with wire := m.wire ++ pre ++ post } ∧
      b.run (sendClock (a.run m)) = { m with wire := m.wire ++ pre ++ [0xF8] ++ post } := by
  have hclock : Emits sendClock [0xF8] := fun m => rfl
  refine ⟨hclock, fun a b m => ?_⟩
  obtain ⟨pre, hpre⟩ := sendCall_emits a
  obtain ⟨post, hpost⟩ := sendCall_emits b
  refine ⟨pre, post, hpre m, ?_, ?_⟩
  · rw [hpost (a.run m), hpre m]
  · rw [hpost (sendClock (a.run m)), hclock (a.run m), hpre m]

/-- C11 (evaluation of the code at Tick): `sendRealTimeMessage(Tick)` falls to the default
case of the switch, so it and `sendTick()` emit no byte at all, not the one byte 0xF9; each
of the six types listed in the switch (Clock, Start, Stop, Continue, ActiveSensing,
SystemReset), and its public sender, emits exactly one byte, the type code. -/
theorem sendTick_emits_nothing :
    Emits (sendRealTimeMessage MidiType.Tick) [] ∧
    Emits sendTick [] ∧
    ¬ Emits sendTick [0xF9] ∧
    (∀ t ∈ [MidiType.Clock, MidiType.Start, MidiType.Continue, MidiType.Stop,
        MidiType.ActiveSensing, MidiType.SystemReset], Emits (sendRealTimeMessage t) [t]) ∧
    Emits sendClock [0xF8] ∧ Emits sendStart [0xFA] ∧ Emits sendContinue [0xFB] ∧
    Emits sendStop [0xFC] ∧ Emits sendActiveSensing [0xFE] ∧ Emits sendReset [0xFF] := by
  have htick : Emits sendTick [] := sendRealTimeMessage_unlisted MidiType.Tick (by decide)
  refine ⟨sendRealTimeMessage_unlisted MidiType.Tick (by decide), htick, fun h => ?_,
    fun t ht => sendRealTimeMessage_listed t ?_,
    sendRealTimeMessage_listed MidiType.Clock (by decide),
    sendRealTimeMessage_listed MidiType.Start (by decide),
    sendRealTimeMessage_listed MidiType.Continue (by decide),
    sendRealTimeMessage_listed MidiType.Stop (by decide),
    sendRealTimeMessage_listed MidiType.ActiveSensing (by decide),
    sendRealTimeMessage_listed MidiType.SystemReset (by decide)⟩
  · exact absurd (emits_unique sendTick [] [0xF9] htick h) (by decide)
  · revert t
    decide

/-- C12: for every type that is not one of the seven real-time codes, in particular every
channel-message type, every system-common type, `InvalidType` and the undefined code 0xFD,
`sendRealTimeMessage(type)` emits zero bytes and leaves the object as it was (the function
has no error result). -/
theorem sendRealTimeMessage_discards (type : Nat) (h : type ∉ realTimeTypes) :
    Emits (sendRealTimeMessage type) [] ∧
    (∀ m : MidiCommonInterface, sendRealTimeMessage type m = m) ∧
    (∀ t ∈ channelMessageTypes, Emits (sendRealTimeMessage t) []) ∧
    (∀ t ∈ systemCommonTypes, Emits (sendRealTimeMessage t) []) ∧
    Emits (sendRealTimeMessage MidiType.InvalidType) [] ∧
    Emits (sendRealTimeMessage 0xFD) [] := by
  have gen : ∀ t : Nat, t ∉ realTimeTypes → Emits (sendRealTimeMessage t) [] := by
    intro t ht
    apply sendRealTimeMessage_unlisted
    intro hl
    apply ht
    rcases hl with rfl | rfl | rfl | rfl | rfl | rfl <;> decide
  refine ⟨gen type h, fun m => ?_, fun t ht => gen t ?_, fun t ht => gen t ?_,
    gen _ (by decide), gen _ (by decide)⟩
  · have e := gen type h m
    rw [List.append_nil] at e
    exact e
  · revert t
    decide
  · revert t
    decide

theorem sendRealTimeMessage_discards_witness :
    MidiType.NoteOn ∉ realTimeTypes ∧ Emits (sendRealTimeMessage MidiType.NoteOn) [] :=
  ⟨by decide, (sendRealTimeMessage_discards MidiType.NoteOn (by decide)).1⟩

/-- C13 (evaluation of the code at the system-common senders): the body of the base-class
`sendSystemCommonMessage` is empty, so `sendTimeCodeQuarterFrame(0x35)` emits no byte, not
`0xF1, 0x35`; `sendSongPosition(300)` emits no byte, not `0xF2, 44, 2`; `sendSongSelect(5)`
emits no byte, not `0xF3, 5`; and `sendTuneRequest()` emits no byte, not `0xF6`. -/
theorem systemCommon_senders_not_emitted :
    (Emits (sendTimeCodeQuarterFrame 0x35) [] ∧
      ¬ Emits (sendTimeCodeQuarterFrame 0x35) [0xF1, 0x35]) ∧
    (Emits (sendSongPosition 300) [] ∧
      ¬ Emits (sendSongPosition 300) [0xF2, 300 &&& 0x7F, (300 >>> 7) &&& 0x7F] ∧
      ¬ Emits (sendSongPosition 300) [0xF2, 44, 2]) ∧
    (Emits (sendSongSelect 5) [] ∧ ¬ Emits (sendSongSelect 5) [0xF3, 5]) ∧
    (Emits sendTuneRequest [] ∧ ¬ Emits sendTuneRequest [0xF6]) := by
  have h1 : Emits (sendTimeCodeQuarterFrame 0x35) [] := emits_nil_of_id
  have h2 : Emits (sendSongPosition 300) [] := emits_nil_of_id
  have h3 : Emits (sendSongSelect 5) [] := emits_nil_of_id
  have h4 : Emits sendTuneRequest [] := emits_nil_of_id
  exact ⟨⟨h1, fun h => absurd (emits_unique _ _ _ h1 h) (by decide)⟩,
    ⟨h2, fun h => absurd (emits_unique _ _ _ h2 h) (by decide),
      fun h => absurd (emits_unique _ _ _ h2 h) (by decide)⟩,
    ⟨h3, fun h => absurd (emits_unique _ _ _ h3 h) (by decide)⟩,
    ⟨h4, fun h => absurd (emits_unique _ _ _ h4 h) (by decide)⟩⟩

/-- C14: for each of the seven channel-message types `t` and every channel value `c` in
0..255, valid or not, `getStatus(t, c)` is `(t & 0xF0) | ((c - 1) & 0x0F)` with `c - 1`
computed in integer arithmetic (so the low nibble is `(c + 15) mod 16`, 15 for channel 0);
it is at least 0x80 and below 0xF0, and its high nibble `result & 0xF0` is `t`, one of
0x80, 0x90, 0xA0, 0xB0, 0xC0, 0xD0, 0xE0. -/
theorem getStatus_range (t c : Nat) (ht : t ∈ channelMessageTypes) (_hc : c < 256) :
    getStatus t c =
      (Int.lor (Int.land (t : Int) 0xF0) (Int.land ((c : Int) - 1) 0x0F)).toNat ∧
    getStatus t c = t + (c + 15) % 16 ∧
    0x80 ≤ getStatus t c ∧ getStatus t c < 0xF0 ∧
    getStatus t c &&& 0xF0 = t ∧
    (getStatus t c &&& 0xF0) ∈ [0x80, 0x90, 0xA0, 0xB0, 0xC0, 0xD0, 0xE0] := by
  have hx : (c + 15) % 16 < 16 := Nat.mod_lt _ (by decide)
  obtain ⟨hor, hhi⟩ := status_nibbles t ht ⟨(c + 15) % 16, hx⟩
  obtain ⟨hlo, hup⟩ := channelType_bounds t ht
  simp only [MidiType.PitchBend] at hup
  simp only at hor hhi
  have hval : getStatus t c = t + (c + 15) % 16 := by
    unfold getStatus
    rw [status_int_eq, hor]
    have : (((t + (c + 15) % 16 : Nat)) : Int) % 256 = ((t + (c + 15) % 16 : Nat) : Int) :=
      Int.emod_eq_of_lt (by omega) (by omega)
    rw [this, Int.toNat_ofNat]
  refine ⟨?_, hval, ?_, ?_, ?_, ?_⟩
  · rw [hval, status_int_eq, hor, Int.toNat_ofNat]
  · rw [hval]
    omega
  · rw [hval]
    omega
  · rw [hval, hhi]
  · rw [hval, hhi]
    exact ht

theorem getStatus_range_witness :
    MidiType.NoteOn ∈ channelMessageTypes ∧ 0 < 256 ∧ getStatus MidiType.NoteOn 0 = 0x9F ∧
      getStatus MidiType.PitchBend 17 = 0xE0 :=
  ⟨by decide, by decide,
    (getStatus_range MidiType.NoteOn 0 (by decide) (by decide)).2.1,
    (getStatus_range MidiType.PitchBend 17 (by decide) (by decide)).2.1⟩

/-- C15: handler registration is last-writer-wins. Every handler slot of a fresh object is
empty (NULL); for every event kind `k` and any two handlers `f` and `g`, `setHandle*(f)`
followed by `setHandle*(g)` leaves the slot of `k` holding `g`, exactly as registering `g`
alone does (overwriting is no error), with the slot of every other kind, `_runningStatus`,
`_thruActivated` and the emitted bytes unchanged; for NoteOn, `setHandleNoteOn(f)` then
`setHandleNoteOn(g)` leaves `_noteOnCallback == g`. -/
theorem setHandle_last_writer_wins :
    (∀ (runningStatus : Int) (thruActivated : Bool) (k : EventKind),
      k.slot (MidiCommonInterface.new runningStatus thruActivated) = none) ∧
    (∀ (k : EventKind) (f g : Option Nat) (m : MidiCommonInterface),
      k.slot (k.setHandle g (k.setHandle f m)) = g ∧
      k.setHandle g (k.setHandle f m) = k.setHandle g m ∧
      (∀ k2 : EventKind, k2 ≠ k → k2.slot (k.setHandle g (k.setHandle f m)) = k2.slot m) ∧
      (k.setHandle g (k.setHandle f m))._runningStatus = m._runningStatus ∧
      (k.setHandle g (k.setHandle f m))._thruActivated = m._thruActivated ∧
      (k.setHandle g (k.setHandle f m)).wire = m.wire) ∧
    (∀ (f g : Option Nat) (m : MidiCommonInterface),
      (setHandleNoteOn g (setHandleNoteOn f m))._noteOnCallback = g) := by
  refine ⟨fun rs thru k => ?_, fun k f g m => ⟨?_, ?_, fun k2 hk => ?_, ?_, ?_, ?_⟩,
    fun f g m => rfl⟩
  · cases k <;> rfl
  · cases k <;> rfl
  · cases k <;> rfl
  · cases k <;> cases k2 <;> first | rfl | exact absurd rfl hk
  · cases k <;> rfl
  · cases k <;> rfl
  · cases k <;> rfl

theorem setHandle_last_writer_wins_witness :
    EventKind.NoteOff ≠ EventKind.NoteOn ∧
      EventKind.NoteOn.slot (EventKind.NoteOn.setHandle (some 2)
        (EventKind.NoteOn.setHandle (some 1) (MidiCommonInterface.new 0 false))) = some 2 ∧
      EventKind.NoteOff.slot (EventKind.NoteOn.setHandle (some 2)
        (EventKind.NoteOn.setHandle (some 1) (MidiCommonInterface.new 0 false))) = none :=
  ⟨by decide,
    (setHandle_last_writer_wins.2.1 EventKind.NoteOn (some 1) (some 2)
      (MidiCommonInterface.new 0 false)).1,
    (setHandle_last_writer_wins.2.1 EventKind.NoteOn (some 1) (some 2)
      (MidiCommonInterface.new 0 false)).2.2.1 EventKind.NoteOff (by decide)⟩

/-- C16: on a channel `c` in 1..16, with any data bytes, `sendChannelMessage(type, d1, d2, c)`
with `type` in the real-time numeric range 0xF8..0xFF does exactly what
`sendRealTimeMessage(type)` does (no status nibble for `c`, no data bytes); with `type`
numerically above PitchBend (0xE0) and below Clock (0xF8) it emits nothing. -/
theorem sendChannelMessage_realTime_range (type d1 d2 c : Nat) (hc1 : 1 ≤ c) (hc16 : c ≤ 16) :
    (MidiType.Clock ≤ type → type ≤ MidiType.SystemReset →
      ∀ m : MidiCommonInterface, sendChannelMessage type d1 d2 c m = sendRealTimeMessage type m) ∧
    (MidiType.PitchBend < type → type < MidiType.Clock →
      Emits (sendChannelMessage type d1 d2 c) []) := by
  have hc : ¬ (c ≥ 17 ∨ c = 0) := by omega
  refine ⟨fun h1 h2 m => ?_, fun h1 h2 m => ?_⟩
  · have hg : ¬ (c ≥ MIDI_CHANNEL_OFF ∨ c = MIDI_CHANNEL_OMNI ∨ type < 0x80) := by
      simp only [MidiType.Clock] at h1
      simp only [MIDI_CHANNEL_OFF, MIDI_CHANNEL_OMNI]
      omega
    have hp : ¬ (type ≤ MidiType.PitchBend) := by
      simp only [MidiType.Clock] at h1
      simp only [MidiType.PitchBend]
      omega
    unfold sendChannelMessage
    rw [if_neg hg, if_neg hp, if_pos ⟨h1, h2⟩]
  · have hg : ¬ (c ≥ MIDI_CHANNEL_OFF ∨ c = MIDI_CHANNEL_OMNI ∨ type < 0x80) := by
      simp only [MidiType.PitchBend] at h1
      simp only [MIDI_CHANNEL_OFF, MIDI_CHANNEL_OMNI]
      omega
    have hp : ¬ (type ≤ MidiType.PitchBend) := Nat.not_le.mpr h1
    have hr : ¬ (type ≥ MidiType.Clock ∧ type ≤ MidiType.SystemReset) :=
      fun h => absurd h.1 (Nat.not_le.mpr h2)
    unfold sendChannelMessage
    rw [if_neg hg, if_neg hp, if_neg hr, List.append_nil]

theorem sendChannelMessage_realTime_range_witness :
    1 ≤ 5 ∧ 5 ≤ 16 ∧
      sendChannelMessage MidiType.Start 1 2 5 (MidiCommonInterface.new 0 false) =
        sendRealTimeMessage MidiType.Start (MidiCommonInterface.new 0 false) ∧
      Emits (sendChannelMessage MidiType.SongSelect 1 2 5) [] :=
  ⟨by decide, by decide,
    (sendChannelMessage_realTime_range MidiType.Start 1 2 5 (by decide) (by decide)).1
      (by decide) (by decide) (MidiCommonInterface.new 0 false),
    (sendChannelMessage_realTime_range MidiType.SongSelect 1 2 5 (by decide) (by decide)).2
      (by decide) (by decide)⟩

/-- C17: encoder and classifier agree. For each of the seven channel-message types `t`, every
channel `c` in 1..16 and all data bytes, `sendChannelMessage(t, d1, d2, c)` emits a first
byte `s` with `getTypeFromStatusByte(s) == t`, `getChannelFromStatusByte(s) == c` and
`isChannelMessage(getTypeFromStatusByte(s))`, followed by one or two bytes `b` that all have
`getTypeFromStatusByte(b) == InvalidType`. -/
theorem encoder_classifier_agree (t d1 d2 c : Nat) (ht : t ∈ channelMessageTypes)
    (hc1 : 1 ≤ c) (hc16 : c ≤ 16) (_hd1 : d1 < 256) (_hd2 : d2 < 256) :
    ∃ (s : Nat) (ds : List Nat),
      Emits (sendChannelMessage t d1 d2 c) (s :: ds) ∧
      getTypeFromStatusByte s = t ∧
      getChannelFromStatusByte s = c ∧
      isChannelMessage (getTypeFromStatusByte s) = true ∧
      ds ≠ [] ∧ ∀ b ∈ ds, getTypeFromStatusByte b = MidiType.InvalidType := by
  obtain ⟨hty, hch, hcm⟩ := channelType_status_classified t ht ⟨c, Nat.lt_succ_of_le hc16⟩ hc1
  by_cases hne : t ≠ MidiType.ProgramChange ∧ t ≠ MidiType.AfterTouchChannel
  · refine ⟨t ||| (c - 1), [d1 &&& 0x7f, d2 &&& 0x7f], fun m => ?_, hty, hch, hcm,
      List.cons_ne_nil _ _, ?_⟩
    · rw [sendChannelMessage_channelType t d1 d2 c m ht hc1 hc16, if_pos hne]
      rfl
    · intro b hb
      simp only [List.mem_cons, List.mem_singleton, List.not_mem_nil, or_false] at hb
      rcases hb with rfl | rfl
      · exact getTypeFromStatusByte_data _ (and_7f_lt d1)
      · exact getTypeFromStatusByte_data _ (and_7f_lt d2)
  · refine ⟨t ||| (c - 1), [d1 &&& 0x7f], fun m => ?_, hty, hch, hcm,
      List.cons_ne_nil _ _, ?_⟩
    · rw [sendChannelMessage_channelType t d1 d2 c m ht hc1 hc16, if_neg hne]
      rfl
    · intro b hb
      simp only [List.mem_singleton] at hb
      subst hb
      exact getTypeFromStatusByte_data _ (and_7f_lt d1)

theorem encoder_classifier_agree_witness :
    MidiType.NoteOn ∈ channelMessageTypes ∧ 1 ≤ 16 ∧ 16 ≤ 16 ∧ 255 < 256 ∧ 200 < 256 ∧
      ∃ (s : Nat) (ds : List Nat),
        Emits (sendChannelMessage MidiType.NoteOn 255 200 16) (s :: ds) ∧
        getTypeFromStatusByte s = MidiType.NoteOn ∧
        getChannelFromStatusByte s = 16 ∧
        isChannelMessage (getTypeFromStatusByte s) = true ∧
        ds ≠ [] ∧ ∀ b ∈ ds, getTypeFromStatusByte b = MidiType.InvalidType :=
  ⟨by decide, by decide, by decide, by decide, by decide,
    encoder_classifier_agree MidiType.NoteOn 255 200 16 (by decide) (by decide) (by decide)
      (by decide) (by decide)⟩

/-- C18: the integer pitch-bend encoding is lossless on its range. For every `v` in
-8192..8191 and channel `c` in 1..16, `sendPitchBend(v, c)` emits three bytes `s, lsb, msb`,
and whenever it emits `s, lsb, msb` then `(lsb | (msb << 7)) + MIN == v`; hence two values
of the range that emit the same data bytes, on whatever channels, are equal. -/
theorem sendPitchBend_lossless (v : Int) (c : Nat) (hlo : MIDI_PITCHBEND_MIN ≤ v)
    (hhi : v ≤ MIDI_PITCHBEND_MAX) (hc1 : 1 ≤ c) (hc16 : c ≤ 16) :
    (∃ s lsb msb : Nat, Emits (sendPitchBend v c) [s, lsb, msb]) ∧
    (∀ s lsb msb : Nat, Emits (sendPitchBend v c) [s, lsb, msb] →
      (((lsb ||| (msb <<< 7) : Nat)) : Int) + MIDI_PITCHBEND_MIN = v) ∧
    (∀ (v2 : Int) (c2 : Nat), MIDI_PITCHBEND_MIN ≤ v2 → v2 ≤ MIDI_PITCHBEND_MAX →
      1 ≤ c2 → c2 ≤ 16 →
      ∀ s s2 lsb msb : Nat, Emits (sendPitchBend v c) [s, lsb, msb] →
        Emits (sendPitchBend v2 c2) [s2, lsb, msb] → v = v2) := by
  refine ⟨⟨_, _, _, sendPitchBend_emits_halves v c hlo hhi hc1 hc16⟩,
    fun s lsb msb h => sendPitchBend_decode v c hlo hhi hc1 hc16 s lsb msb h,
    fun v2 c2 hlo2 hhi2 h1 h16 s s2 lsb msb h h2 => ?_⟩
  rw [← sendPitchBend_decode v c hlo hhi hc1 hc16 s lsb msb h,
    ← sendPitchBend_decode v2 c2 hlo2 hhi2 h1 h16 s2 lsb msb h2]

theorem sendPitchBend_lossless_witness :
    MIDI_PITCHBEND_MIN ≤ -8192 ∧ -8192 ≤ MIDI_PITCHBEND_MAX ∧ 1 ≤ 16 ∧ 16 ≤ 16 ∧
      ∃ s lsb msb : Nat, Emits (sendPitchBend (-8192) 16) [s, lsb, msb] :=
  ⟨by decide, by decide, by decide, by decide,
    (sendPitchBend_lossless (-8192) 16 (by decide) (by decide) (by decide) (by decide)).1⟩

/-- C19: the three-argument `sendAfterTouch(note, pressure, channel)` is routed as
AfterTouchChannel, not AfterTouchPoly. For every channel `c` in 1..16 and all `note`,
`pressure` in 0..255 it emits exactly the two bytes `0xD0 | (c - 1)`, `note & 0x7F`; two
calls that differ only in `pressure` do the same; and the result differs from that of
`sendPolyPressure(note, pressure, c)`, which emits the three bytes `0xA0 | (c - 1)`,
`note & 0x7F`, `pressure & 0x7F`. -/
theorem sendAfterTouch_three_arguments (note pressure c : Nat) (hc1 : 1 ≤ c) (hc16 : c ≤ 16)
    (_hn : note < 256) (_hp : pressure < 256) :
    Emits (sendAfterTouchNote note pressure c) [0xD0 ||| (c - 1), note &&& 0x7F] ∧
    (∀ (pressure2 : Nat) (m : MidiCommonInterface),
      sendAfterTouchNote note pressure2 c m = sendAfterTouchNote note pressure c m) ∧
    Emits (sendPolyPressure note pressure c)
      [0xA0 ||| (c - 1), note &&& 0x7F, pressure &&& 0x7F] ∧
    (∀ m : MidiCommonInterface,
      sendAfterTouchNote note pressure c m ≠ sendPolyPressure note pressure c m) := by
  have hat : ∀ p : Nat, Emits (sendAfterTouchNote note p c) [0xD0 ||| (c - 1), note &&& 0x7F] := by
    intro p m
    unfold sendAfterTouchNote
    rw [sendChannelMessage_channelType MidiType.AfterTouchChannel note p c m (by decide) hc1 hc16,
      if_neg (by decide)]
    rfl
  have hpp : Emits (sendPolyPressure note pressure c)
      [0xA0 ||| (c - 1), note &&& 0x7F, pressure &&& 0x7F] := by
    intro m
    unfold sendPolyPressure
    rw [sendChannelMessage_channelType MidiType.AfterTouchPoly note pressure c m (by decide)
      hc1 hc16, if_pos (by decide)]
    rfl
  refine ⟨hat pressure, fun p m => ?_, hpp, fun m h => ?_⟩
  · rw [hat p m, hat pressure m]
  · rw [hat pressure m, hpp m] at h
    have w := List.append_cancel_left (congrArg MidiCommonInterface.wire h)
    have hl := congrArg List.length w
    simp only [List.length_cons, List.length_nil] at hl
    omega

theorem sendAfterTouch_three_arguments_witness :
    1 ≤ 1 ∧ 1 ≤ 16 ∧ 60 < 256 ∧ 100 < 256 ∧ Emits (sendAfterTouchNote 60 100 1) [0xD0, 60] :=
  ⟨by decide, by decide, by decide, by decide,
    (sendAfterTouch_three_arguments 60 100 1 (by decide) (by decide) (by decide)
      (by decide)).1⟩

/-- C20: for every byte `s` in 0..255, `isChannelMessage(getTypeFromStatusByte(s))` is true
if and only if `0x80 <= s <= 0xEF`; `isChannelMessage` accepts exactly the seven codes 0x80,
0x90, 0xA0, 0xB0, 0xC0, 0xD0, 0xE0 and rejects `InvalidType` and every code from 0xF0 up. -/
theorem isChannelMessage_classified (s : Nat) (_hs : s < 256) :
    (isChannelMessage (getTypeFromStatusByte s) = true ↔ 0x80 ≤ s ∧ s ≤ 0xEF) ∧
    (∀ t : Nat, isChannelMessage t = true ↔ t ∈ [0x80, 0x90, 0xA0, 0xB0, 0xC0, 0xD0, 0xE0]) ∧
    isChannelMessage MidiType.InvalidType = false ∧
    (∀ t : Nat, 0xF0 ≤ t → isChannelMessage t = false) := by
  have hhigh : ∀ t : Nat, 0xF0 ≤ t → isChannelMessage t = false := by
    intro t ht
    rw [← Bool.not_eq_true, isChannelMessage_eq_true_iff]
    intro hm
    have hb := (channelType_bounds t hm).2
    simp only [MidiType.PitchBend] at hb
    omega
  refine ⟨⟨fun h => ?_, fun h => ?_⟩, fun t => ?_, by decide, hhigh⟩
  · by_cases hlo : s < 0x80
    · have ht := getTypeFromStatusByte_data s hlo
      rw [ht] at h
      exact absurd h (by decide)
    · by_cases hup : s < 0xF0
      · omega
      · have hty : getTypeFromStatusByte s = MidiType.InvalidType ∨
            getTypeFromStatusByte s = s := by
          unfold getTypeFromStatusByte
          split_ifs
          · exact Or.inl rfl
          · exact Or.inr rfl
        rcases hty with ht | ht
        · rw [ht] at h
          exact absurd h (by decide)
        · rw [ht, hhigh s (by omega)] at h
          exact absurd h (by decide)
  · exact (isChannelMessage_eq_true_iff _).mpr
      (getTypeFromStatusByte_channel_range s h.1 (by omega))
  · exact isChannelMessage_eq_true_iff t

theorem isChannelMessage_classified_witness :
    (0x9F : Nat) < 256 ∧
      (isChannelMessage (getTypeFromStatusByte 0x9F) = true ↔ 0x80 ≤ 0x9F ∧ 0x9F ≤ 0xEF) ∧
      isChannelMessage (getTypeFromStatusByte 0xF8) = false :=
  ⟨by decide, (isChannelMessage_classified 0x9F (by decide)).1,
    (isChannelMessage_classified 0xF8 (by decide)).2.2.2 _ (by decide)⟩

end Midi
